import Mathlib

/-!
Shallow embedding of the OAuth2 login orchestrator of the editron desktop
client (src/editron-app/src-tauri/src/auth.rs, lib.rs, config.rs).

External I/O (HTTP responses, the random state generator, the system clock,
port probing, browser launching) is passed in as explicit outcome parameters;
persistence flushes and UI events are recorded in an explicit event trace.
The registry maps guarded by mutexes in the source become pure association
lists with the same get/insert/remove semantics as the Rust HashMap and Vec
operations they stand for.
-/

namespace Editron

/-- Mirrors struct UserProfile in auth.rs. -/
structure UserProfile where
  id : Int
  email : String
  name : String
  profile_picture : Option String
  auth_provider : String
deriving Repr, DecidableEq

/-- Mirrors struct Server in auth.rs. -/
structure Server where
  id : String
  profile : Option UserProfile
  available : Bool
deriving Repr, DecidableEq

/-- Mirrors struct ServerAccessToken in auth.rs; expires_at is u64 epoch
seconds, modelled as Nat with explicit wrap where the source adds. -/
structure ServerAccessToken where
  server_id : String
  access_token : String
  refresh_token : String
  expires_at : Nat
deriving Repr, DecidableEq

/-- Mirrors ServerAccessToken::new in auth.rs. -/
def ServerAccessToken.new (server_id access_token refresh_token : String)
    (expires_at : Nat) : ServerAccessToken :=
  { server_id := server_id, access_token := access_token,
    refresh_token := refresh_token, expires_at := expires_at }

/-- The ACCESS_TOKENS HashMap of auth.rs, as an association list. -/
abbrev TokenMap := List (String × ServerAccessToken)

/-- HashMap::get on the token map. -/
def tokensGet (m : TokenMap) (k : String) : Option ServerAccessToken :=
  (m.find? fun p => p.1 == k).map Prod.snd

/-- HashMap::insert on the token map: replaces the value at an existing key,
otherwise adds the binding. -/
def tokensInsert (m : TokenMap) (k : String) (v : ServerAccessToken) : TokenMap :=
  match m with
  | [] => [(k, v)]
  | p :: rest => if p.1 == k then (k, v) :: rest else p :: tokensInsert rest k v

/-- HashMap::remove on the token map. -/
def tokensRemove (m : TokenMap) (k : String) : TokenMap :=
  m.filter fun p => p.1 != k

/-- Mirrors save_access_token in auth.rs. -/
def save_access_token (m : TokenMap) (server_id : String)
    (token : ServerAccessToken) : TokenMap :=
  tokensInsert m server_id token

/-- Mirrors remove_access_token in auth.rs. -/
def remove_access_token (m : TokenMap) (server_id : String) : TokenMap :=
  tokensRemove m server_id

/-- Mirrors has_access_token in auth.rs (HashMap::contains_key). -/
def has_access_token (m : TokenMap) (server_id : String) : Bool :=
  (tokensGet m server_id).isSome

/-- Mirrors get_server_by_id in auth.rs: first server with a matching id. -/
def get_server_by_id (servers : List Server) (id : String) : Option Server :=
  servers.find? fun s => s.id == id

/-- Mirrors save_server in auth.rs: the source locates the position of the
first server with a matching id and assigns at that index, otherwise pushes;
this recursion computes the same list. -/
def save_server (servers : List Server) (server : Server) : List Server :=
  match servers with
  | [] => [server]
  | s :: rest =>
      if s.id == server.id then server :: rest
      else s :: save_server rest server

/-- The shared mutable registry of auth.rs: the SERVERS vector, the
ACCESS_TOKENS map and the OAUTH_STATE slot. -/
structure RegistryState where
  servers : List Server
  access_tokens : TokenMap
  oauth_state : Option String
deriving Repr, DecidableEq

/-- Mirrors struct TokenExchangeRequest in auth.rs. -/
structure TokenExchangeRequest where
  code : String
  code_verifier : String
  provider : String
  tauri_redirect_uri : String
deriving Repr, DecidableEq

/-- Observable side effects of the orchestrator: persistence flushes
(persist_servers_token / persist_servers), emitted UI events, the browser
launch and the outbound token-exchange POST. -/
inductive Event where
  | tokenExchangeRequested (req : TokenExchangeRequest)
  | flushTokens
  | flushServers
  | loginSuccess
  | loginFailed (msg : String)
  | logoutSuccess
  | browserOpened (url : String)
deriving Repr, DecidableEq

instance instDecEqExcept {ε α : Type} [DecidableEq ε] [DecidableEq α] :
    DecidableEq (Except ε α) := fun a b =>
  match a, b with
  | .ok x, .ok y => decidable_of_iff (x = y) (by simp)
  | .error x, .error y => decidable_of_iff (x = y) (by simp)
  | .ok _, .error _ => .isFalse (by intro h; cases h)
  | .error _, .ok _ => .isFalse (by intro h; cases h)

/-- Outcome of the HTTP GET against the profile endpoint, as seen by
get_user_profile after the send: a transport error, a success status whose
body either parses to a profile or fails to read or parse, or a non-success
status code. -/
inductive ProfileResponse where
  | netErr (msg : String)
  | success (parsed : Except String UserProfile)
  | status (code : Nat)
deriving Repr, DecidableEq

/-- The response-dependent part of get_user_profile in auth.rs, after the
token lookup succeeded. The source formats the non-401 status with its
canonical reason phrase; the model keeps the numeric code. -/
def profileFetchResult (resp : ProfileResponse) : Except String UserProfile :=
  match resp with
  | .netErr msg => .error msg
  | .success parsed => parsed
  | .status code =>
      if code == 401 then .error "Unauthorized: Token expired or invalid"
      else .error ("Request failed with status: " ++ toString code)

/-- Mirrors get_user_profile in auth.rs: reads the stored token for the
server, then maps the HTTP outcome exactly as the source branches do. -/
def get_user_profile (tokens : TokenMap) (server_id : String)
    (resp : ProfileResponse) : Except String UserProfile :=
  match tokensGet tokens server_id with
  | none => .error "No JWT access token found"
  | some _ => profileFetchResult resp

/-- Mirrors the check_login Tauri command in auth.rs: with a stored token it
probes the profile endpoint; on Ok it returns true, on any Err it removes the
token, flushes, and returns false; with no token it returns false. -/
def check_login (server_id : String) (resp : ProfileResponse)
    (st : RegistryState) : RegistryState × List Event × Except String Bool :=
  if has_access_token st.access_tokens server_id then
    match get_user_profile st.access_tokens server_id resp with
    | .ok _ => (st, [], .ok true)
    | .error _ =>
        ({ st with access_tokens := remove_access_token st.access_tokens server_id },
         [.flushTokens], .ok false)
  else (st, [], .ok false)

/-- Mirrors AppConfig::oauth_callback_url in config.rs. -/
def oauth_callback_url (port : Nat) : String :=
  "http://localhost:" ++ toString port ++ "/auth/callback"

/-- Outcome of the POST against the token exchange endpoint, as seen by
handle_sso_finalization after the send: transport error, non-success status
with its body, success status with an unparseable body, or the parsed token
pair. -/
inductive ExchangeOutcome where
  | netErr (msg : String)
  | httpErr (body : String)
  | parseErr (msg : String)
  | ok (access_token refresh_token : String)
deriving Repr, DecidableEq

/-- Mirrors handle_sso_finalization in auth.rs: clears OAUTH_STATE
unconditionally, builds the exchange request (empty codeVerifier, provider
google-oauth2, redirect for the callback port), posts it; on success stores
an access token with expiry now + 24h (u64 addition, hence the wrap), flushes
tokens, fetches the profile with the new token; on profile success updates
the server record, flushes servers and emits login_success; on profile
failure emits login_failed and returns the error. -/
def handle_sso_finalization (server_id code : String) (server_port now : Nat)
    (exchange : ExchangeOutcome) (profileResp : ProfileResponse)
    (st : RegistryState) : RegistryState × List Event × Except String Unit :=
  let st1 := { st with oauth_state := none }
  let req : TokenExchangeRequest :=
    { code := code, code_verifier := "", provider := "google-oauth2",
      tauri_redirect_uri := oauth_callback_url server_port }
  let evs := [Event.tokenExchangeRequested req]
  match exchange with
  | .netErr msg => (st1, evs, .error msg)
  | .httpErr _body => (st1, evs, .error "Token exchange failed")
  | .parseErr msg => (st1, evs, .error msg)
  | .ok access refresh =>
      let tok := ServerAccessToken.new server_id access refresh
        ((now + 24 * 60 * 60) % 2 ^ 64)
      let st2 := { st1 with
        access_tokens := save_access_token st1.access_tokens server_id tok }
      let evs := evs ++ [Event.flushTokens]
      match get_user_profile st2.access_tokens server_id profileResp with
      | .ok profile =>
          let server := (get_server_by_id st2.servers server_id).getD
            { id := server_id, profile := none, available := false }
          let server := { server with profile := some profile, available := true }
          let st3 := { st2 with servers := save_server st2.servers server }
          (st3, evs ++ [Event.flushServers, Event.loginSuccess], .ok ())
      | .error e => (st2, evs ++ [Event.loginFailed e], .error e)

/-- One inbound HTTP request hitting the loopback callback route: its query
parameters, as the HashMap warp deserializes them into. -/
structure CallbackRequest where
  query_params : List (String × String)
deriving Repr, DecidableEq

/-- Lookup in a query-parameter map built by collecting pairs into a
HashMap: a later binding of the same key overwrites an earlier one. -/
def hmGet (m : List (String × String)) (k : String) : Option String :=
  (m.reverse.find? fun p => p.1 == k).map Prod.snd

/-- State of the loopback callback server of start_oauth_callback_server:
whether the oneshot completion sender is still in its slot, whether the
graceful-shutdown sender is still in its slot, the messages sent through the
completion channel, and whether a delayed shutdown has been scheduled. -/
structure CallbackServerState where
  tx : Bool
  shutdown_tx : Bool
  sent : List String
  shutdown_scheduled : Bool
deriving Repr, DecidableEq

/-- Server state when warp starts serving: both senders are in their slots,
nothing sent, no shutdown scheduled. -/
def initialCallbackServerState : CallbackServerState :=
  { tx := true, shutdown_tx := true, sent := [], shutdown_scheduled := false }

/-- The warp callback route handler in start_oauth_callback_server: a code
parameter sends the code through the completion channel if the sender is
still present and schedules the delayed shutdown if that sender is still
present; an error parameter does the same with an error-prefixed message;
anything else only renders a diagnostic page. -/
def handleCallback (st : CallbackServerState) (req : CallbackRequest) :
    CallbackServerState :=
  match hmGet req.query_params "code" with
  | some code =>
      let st := if st.tx then { st with tx := false, sent := st.sent ++ [code] } else st
      if st.shutdown_tx then
        { st with shutdown_tx := false, shutdown_scheduled := true }
      else st
  | none =>
      match hmGet req.query_params "error" with
      | some e =>
          let st := if st.tx then
              { st with tx := false, sent := st.sent ++ ["error:" ++ e] }
            else st
          if st.shutdown_tx then
            { st with shutdown_tx := false, shutdown_scheduled := true }
          else st
      | none => st

/-- The callback route serving a sequence of inbound requests in arrival
order. -/
def processCallbacks (st : CallbackServerState) (reqs : List CallbackRequest) :
    CallbackServerState :=
  reqs.foldl handleCallback st

/-- Mirrors the select in start_oauth_callback_server, racing the completion
receiver against the timeout sleep: reqs are the requests delivered before
the deadline; the first message sent (if any) resolves the receiver and is
mapped exactly as the source maps auth_result, otherwise the sleep wins and
the call resolves with the timeout error. Also returns the final server
state, which records whether a shutdown was ever signalled. -/
def start_oauth_callback_server (reqs : List CallbackRequest) :
    CallbackServerState × Except String String :=
  let st := processCallbacks initialCallbackServerState reqs
  match st.sent.head? with
  | some auth_result =>
      if auth_result.startsWith "error:" then
        (st, .error (auth_result.replace "error:" ""))
      else (st, .ok auth_result)
  | none => (st, .error "Authentication timed out")

/-- Outcome of the GET against the auth-url endpoint in start_login_flow. -/
inductive AuthUrlOutcome where
  | netErr (msg : String)
  | httpErr (body : String)
  | parseErr (msg : String)
  | ok (url : String)
deriving Repr, DecidableEq

/-- The environment of one run of start_login_flow: the generated random
state, the port probe result, the auth-url response, the browser launch
outcome, the callback requests delivered before the deadline, the exchange
response, the profile response and the clock reading at token issuance. -/
structure LoginEnv where
  fresh_state : String
  port : Option Nat
  auth_url : AuthUrlOutcome
  browser : Except String Unit
  requests : List CallbackRequest
  exchange : ExchangeOutcome
  profile : ProfileResponse
  now : Nat
deriving Repr, DecidableEq

/-- Mirrors the start_login_flow Tauri command in auth.rs: stores the fresh
OAuth state, probes for a port, asks the backend for the auth URL, opens the
browser on the display=popup variant of it, runs the callback server, and on
a received code runs the finalization; every early error propagates and
returns without touching the stored state again. -/
def start_login_flow (server_id : String) (env : LoginEnv)
    (st : RegistryState) : RegistryState × List Event × Except String Unit :=
  let st1 := { st with oauth_state := some env.fresh_state }
  match env.port with
  | none => (st1, [], .error "No available port found")
  | some port =>
      match env.auth_url with
      | .netErr msg => (st1, [], .error ("Backend request failed: " ++ msg))
      | .httpErr _body => (st1, [], .error "Failed to get auth URL from backend")
      | .parseErr msg => (st1, [], .error ("Failed to parse backend response: " ++ msg))
      | .ok url =>
          let enhanced_url :=
            if url.contains '?' then url ++ "&display=popup"
            else url ++ "?display=popup"
          match env.browser with
          | .error e => (st1, [], .error e)
          | .ok _ =>
              let evs := [Event.browserOpened enhanced_url]
              match (start_oauth_callback_server env.requests).2 with
              | .error e => (st1, evs, .error e)
              | .ok auth_code =>
                  let r := handle_sso_finalization server_id auth_code port
                    env.now env.exchange env.profile st1
                  (r.1, evs ++ r.2.1, r.2.2)

/-- True exactly when a run of start_login_flow with this environment gets
past the port probe, the auth-url request, the browser launch and the
callback wait, and therefore invokes handle_sso_finalization. -/
def loginReachesFinalization (env : LoginEnv) : Bool :=
  env.port.isSome &&
  (match env.auth_url with | .ok _ => true | _ => false) &&
  (match env.browser with | .ok _ => true | _ => false) &&
  (match (start_oauth_callback_server env.requests).2 with
   | .ok _ => true | _ => false)

/-- Mirrors the logout Tauri command in auth.rs: removes the token, flushes
tokens, and when the server record exists marks it unavailable, clears its
profile, saves it and flushes servers; finally emits logout_success. -/
def logout (server_id : String) (st : RegistryState) :
    RegistryState × List Event × Except String Unit :=
  let st1 := { st with
    access_tokens := remove_access_token st.access_tokens server_id }
  match get_server_by_id st1.servers server_id with
  | some server =>
      let server := { server with available := false, profile := none }
      let st2 := { st1 with servers := save_server st1.servers server }
      (st2, [Event.flushTokens, Event.flushServers, Event.logoutSuccess], .ok ())
  | none => (st1, [Event.flushTokens, Event.logoutSuccess], .ok ())

/-- Mirrors the get_access_token Tauri command in auth.rs: a read-only
lookup of the stored token for the server, returning its access_token
string, or the fixed error when none is stored. -/
def get_access_token (server_id : String) (st : RegistryState) :
    RegistryState × Except String String :=
  match tokensGet st.access_tokens server_id with
  | some token_data => (st, .ok token_data.access_token)
  | none => (st, .error "No access token available")

/-- The relevant components of a parsed deep-link URI, as url::Url exposes
them in the handler in lib.rs: scheme, host, path and the query pairs in
order. -/
structure DeepLinkUrl where
  scheme : String
  host : Option String
  path : String
  query_pairs : List (String × String)
deriving Repr, DecidableEq

/-- What the deep-link listener in lib.rs decides to do with one event:
spawn the login finalization with a code, or ignore the event (logging
only, no UI event, no failure report). -/
inductive DeepLinkAction where
  | finalize (code : String)
  | ignore
deriving Repr, DecidableEq

/-- Mirrors the tauri deep-link listener closure in lib.rs: none stands for
a payload whose URL failed to parse. A parsed URL triggers finalization only
when scheme, host and path match and the collected query map holds
status=success; the code parameter defaults to the empty string. Every other
event is ignored. -/
def deep_link_handler (parsed : Option DeepLinkUrl) : DeepLinkAction :=
  match parsed with
  | none => .ignore
  | some url =>
      if url.scheme == "editron-app" && url.host == some "auth"
          && url.path == "/callback" then
        if hmGet url.query_pairs "status" == some "success" then
          .finalize ((hmGet url.query_pairs "code").getD "")
        else .ignore
      else .ignore

/-- A concrete profile used by the closed counterexample and witness
statements. -/
def sampleProfile : UserProfile :=
  { id := 1, email := "user@example.com", name := "User",
    profile_picture := none, auth_provider := "google-oauth2" }

/-- A concrete stored token used by the closed counterexample and witness
statements. -/
def sampleToken : ServerAccessToken :=
  ServerAccessToken.new "backend_v1" "tok" "ref" 1000

/-- A registry holding one stored token for the default server. -/
def sampleState : RegistryState :=
  { servers := [], access_tokens := [("backend_v1", sampleToken)],
    oauth_state := none }

/-- A registry as after a successful login: one available server holding a
profile, and one stored token. -/
def loggedInState : RegistryState :=
  { servers := [{ id := "backend_v1", profile := some sampleProfile,
                  available := true }],
    access_tokens := [("backend_v1", sampleToken)],
    oauth_state := none }

/-- An environment in which everything is in place but no callback request
arrives before the deadline: the callback wait times out. -/
def timeoutEnv : LoginEnv :=
  { fresh_state := "state123", port := some 8080,
    auth_url := .ok "https://idp.example/authorize",
    browser := .ok (), requests := [],
    exchange := .ok "tok" "ref",
    profile := .success (.ok sampleProfile), now := 1000 }

/-- A registry with no servers, no tokens and an empty session slot. -/
def emptyRegistry : RegistryState :=
  { servers := [], access_tokens := [], oauth_state := none }

/-- Proof helper: the effect of one logout on the server list, written as
structural recursion so that induction applies; logoutServers_eq_logout_step
shows it computes exactly the lookup-then-save of the source. -/
def logoutServers (server_id : String) : List Server → List Server
  | [] => []
  | s :: rest =>
      if s.id == server_id then
        { s with available := false, profile := none } :: rest
      else s :: logoutServers server_id rest

lemma tokensGet_insert_self (m : TokenMap) (k : String) (v : ServerAccessToken) :
    tokensGet (tokensInsert m k v) k = some v := by
  induction m with
  | nil => simp [tokensGet, tokensInsert, List.find?]
  | cons p rest ih =>
      by_cases h : p.1 == k
      · simp [tokensGet, tokensInsert, h, List.find?]
      · simp only [tokensInsert, h, if_false, Bool.false_eq_true]
        simpa [tokensGet, List.find?, h] using ih

lemma tokensGet_remove_self (m : TokenMap) (k : String) :
    tokensGet (tokensRemove m k) k = none := by
  induction m with
  | nil => simp [tokensGet, tokensRemove]
  | cons p rest ih =>
      by_cases h : p.1 == k
      · have hb : (p.1 != k) = false := by simp [bne, h]
        simpa [tokensRemove, List.filter_cons, hb] using ih
      · have hb : (p.1 != k) = true := by simpa [bne] using h
        simp only [tokensRemove, List.filter_cons, hb, if_true]
        simpa [tokensGet, tokensRemove, List.find?_cons, h] using ih

lemma tokensRemove_idem (m : TokenMap) (k : String) :
    tokensRemove (tokensRemove m k) k = tokensRemove m k := by
  induction m with
  | nil => rfl
  | cons p rest ih =>
      by_cases h : p.1 == k
      · have hb : (p.1 != k) = false := by simp [bne, h]
        simpa [tokensRemove, List.filter_cons, hb] using ih
      · have hb : (p.1 != k) = true := by simpa [bne] using h
        simp only [tokensRemove, List.filter_cons, hb, if_true] at ih ⊢
        simpa [hb] using ih

lemma logoutServers_eq_logout_step (server_id : String) (l : List Server) :
    logoutServers server_id l =
      match get_server_by_id l server_id with
      | some s => save_server l { s with available := false, profile := none }
      | none => l := by
  induction l with
  | nil => rfl
  | cons s rest ih =>
      by_cases h : s.id == server_id
      · simp [logoutServers, get_server_by_id, List.find?, h, save_server]
      · have hb : (s.id == server_id) = false := by simpa using h
        simp only [logoutServers, hb, if_false, Bool.false_eq_true,
          get_server_by_id, List.find?_cons, if_true] at ih ⊢
        cases hf : rest.find? (fun x => x.id == server_id) with
        | none => simp only [hf] at ih; simp [ih]
        | some t =>
            have ht := List.find?_some hf
            have ht2 : t.id = server_id := by simpa using ht
            simp only [hf] at ih
            have hx : (s.id == t.id) = false := by
              rw [ht2]; exact hb
            simp [save_server, hx, ih]

lemma get_server_logoutServers (server_id : String) (l : List Server) :
    get_server_by_id (logoutServers server_id l) server_id =
      (get_server_by_id l server_id).map
        (fun s => { s with available := false, profile := none }) := by
  induction l with
  | nil => rfl
  | cons s rest ih =>
      by_cases h : s.id == server_id
      · simp [logoutServers, get_server_by_id, List.find?, h]
      · simp only [logoutServers, h, if_false, Bool.false_eq_true]
        simpa [get_server_by_id, List.find?, h] using ih

lemma logoutServers_idem (server_id : String) (l : List Server) :
    logoutServers server_id (logoutServers server_id l) =
      logoutServers server_id l := by
  induction l with
  | nil => rfl
  | cons s rest ih =>
      by_cases h : s.id == server_id
      · simp [logoutServers, h]
      · simp [logoutServers, h, ih]

lemma logout_state_eq (server_id : String) (st : RegistryState) :
    (logout server_id st).1 =
      { servers := logoutServers server_id st.servers,
        access_tokens := tokensRemove st.access_tokens server_id,
        oauth_state := st.oauth_state } ∧
    (logout server_id st).2.2 = .ok () := by
  rw [logoutServers_eq_logout_step]
  unfold logout
  cases hf : get_server_by_id st.servers server_id with
  | none => simp [remove_access_token, hf]
  | some s => simp [remove_access_token, hf]

lemma finalization_oauth_state_none (server_id code : String)
    (server_port now : Nat) (ex : ExchangeOutcome) (presp : ProfileResponse)
    (st : RegistryState) :
    (handle_sso_finalization server_id code server_port now ex presp st).1.oauth_state
      = none := by
  unfold handle_sso_finalization
  cases ex with
  | netErr msg => rfl
  | httpErr body => rfl
  | parseErr msg => rfl
  | ok a r =>
      dsimp only
      split <;> rfl

lemma handleCallback_cases (st : CallbackServerState) (r : CallbackRequest) :
    ((handleCallback st r).sent = st.sent ∧ (handleCallback st r).tx = st.tx) ∨
    (st.tx = true ∧ (handleCallback st r).tx = false ∧
      (handleCallback st r).sent.length = st.sent.length + 1) := by
  unfold handleCallback
  cases hc : hmGet r.query_params "code" with
  | some code =>
      cases htx : st.tx with
      | false => left; cases hsd : st.shutdown_tx <;> simp [htx, hsd]
      | true => right; cases hsd : st.shutdown_tx <;> simp [htx, hsd]
  | none =>
      cases he : hmGet r.query_params "error" with
      | some e =>
          cases htx : st.tx with
          | false => left; cases hsd : st.shutdown_tx <;> simp [htx, hsd]
          | true => right; cases hsd : st.shutdown_tx <;> simp [htx, hsd]
      | none => left; exact ⟨rfl, rfl⟩

lemma handleCallback_tx_false (st : CallbackServerState) (r : CallbackRequest)
    (h : st.tx = false) : (handleCallback st r).sent = st.sent := by
  rcases handleCallback_cases st r with ⟨hs, _⟩ | ⟨ht, _, _⟩
  · exact hs
  · rw [h] at ht; cases ht

lemma processCallbacks_sent_le (reqs : List CallbackRequest) :
    ∀ st : CallbackServerState,
      (processCallbacks st reqs).sent.length ≤
        st.sent.length + (if st.tx then 1 else 0) := by
  induction reqs with
  | nil => intro st; simp [processCallbacks]
  | cons r rest ih =>
      intro st
      have hstep : processCallbacks st (r :: rest) =
          processCallbacks (handleCallback st r) rest := rfl
      rw [hstep]
      rcases handleCallback_cases st r with ⟨hs, ht⟩ | ⟨ht, ht2, hs⟩
      · have := ih (handleCallback st r)
        rw [hs, ht] at this
        exact this
      · have := ih (handleCallback st r)
        rw [hs, ht2] at this
        rw [ht]
        simpa using this

lemma handleCallback_nonresolving (st : CallbackServerState)
    (r : CallbackRequest) (hc : hmGet r.query_params "code" = none)
    (he : hmGet r.query_params "error" = none) : handleCallback st r = st := by
  unfold handleCallback
  rw [hc, he]

lemma processCallbacks_nonresolving (reqs : List CallbackRequest) :
    ∀ st : CallbackServerState,
      (∀ r ∈ reqs, hmGet r.query_params "code" = none ∧
        hmGet r.query_params "error" = none) →
      processCallbacks st reqs = st := by
  induction reqs with
  | nil => intro st _; rfl
  | cons r rest ih =>
      intro st h
      have hr := h r (by simp)
      have hstep : processCallbacks st (r :: rest) =
          processCallbacks (handleCallback st r) rest := rfl
      rw [hstep, handleCallback_nonresolving st r hr.1 hr.2]
      exact ih st fun q hq => h q (by simp [hq])

/-- C1: the claim says check_login removes the stored token only on a 401
profile response and that any other fetch failure leaves the token stored.
The code removes the token on every profile-fetch failure: at this concrete
registry a 500 response deletes the token and check_login returns false. -/
theorem check_login_c1_counterexample :
    tokensGet (check_login "backend_v1" (.status 500) sampleState).1.access_tokens
        "backend_v1" = none ∧
    (check_login "backend_v1" (.status 500) sampleState).1.access_tokens = [] ∧
    (check_login "backend_v1" (.status 500) sampleState).2.2 = .ok false := by
  refine ⟨?_, ?_, ?_⟩ <;> rfl

/-- C1 (amended): check_login returns false and leaves the registry
unchanged when no token is stored; with a stored token it returns true and
changes nothing when the profile fetch succeeds, and on EVERY profile-fetch
failure (401, other status, transport or parse error alike) it removes the
token, flushes, and returns false. -/
theorem check_login_removes_token_on_any_fetch_failure
    (server_id : String) (resp : ProfileResponse) (st : RegistryState) :
    (has_access_token st.access_tokens server_id = false →
      check_login server_id resp st = (st, [], .ok false)) ∧
    (has_access_token st.access_tokens server_id = true →
      ∀ p, get_user_profile st.access_tokens server_id resp = .ok p →
        check_login server_id resp st = (st, [], .ok true)) ∧
    (has_access_token st.access_tokens server_id = true →
      ∀ e, get_user_profile st.access_tokens server_id resp = .error e →
        check_login server_id resp st =
          ({ st with access_tokens :=
              remove_access_token st.access_tokens server_id },
           [Event.flushTokens], .ok false)) := by
  refine ⟨?_, ?_, ?_⟩
  · intro h; simp [check_login, h]
  · intro h p hp; simp [check_login, h, hp]
  · intro h e hp; simp [check_login, h, hp]

/-- C1 witness: the amended theorem applied to the concrete registry with a
stored token and a 500 profile response. -/
theorem check_login_removes_token_witness :
    check_login "backend_v1" (.status 500) sampleState =
      ({ sampleState with access_tokens :=
          remove_access_token sampleState.access_tokens "backend_v1" },
       [Event.flushTokens], .ok false) :=
  (check_login_removes_token_on_any_fetch_failure "backend_v1"
      (.status 500) sampleState).2.2 (by decide)
    "Request failed with status: 500" (by decide)

/-- C6: logout is idempotent on the registry, never errors, and leaves the
token absent with the server marked unavailable and its profile cleared. -/
theorem logout_idempotent (server_id : String) (st : RegistryState) :
    (logout server_id (logout server_id st).1).1 = (logout server_id st).1 ∧
    (logout server_id st).2.2 = .ok () ∧
    (logout server_id (logout server_id st).1).2.2 = .ok () ∧
    tokensGet (logout server_id st).1.access_tokens server_id = none ∧
    (∀ srv, get_server_by_id (logout server_id st).1.servers server_id = some srv →
      srv.available = false ∧ srv.profile = none) := by
  obtain ⟨hst, hok⟩ := logout_state_eq server_id st
  obtain ⟨hst2, hok2⟩ := logout_state_eq server_id (logout server_id st).1
  refine ⟨?_, hok, hok2, ?_, ?_⟩
  · rw [hst2, hst]
    simp only
    rw [logoutServers_idem, tokensRemove_idem]
  · rw [hst]
    exact tokensGet_remove_self st.access_tokens server_id
  · intro srv hsrv
    rw [hst] at hsrv
    simp only at hsrv
    rw [get_server_logoutServers] at hsrv
    rcases Option.map_eq_some'.mp hsrv with ⟨s0, _, hs0⟩
    rw [← hs0]
    exact ⟨rfl, rfl⟩

/-- C6 witness: the theorem applied to a registry holding a stored token and
an available server with a profile; the last conjunct is discharged at the
logged-out server record. -/
theorem logout_idempotent_witness :
    (logout "backend_v1" (logout "backend_v1" loggedInState).1).1 =
        (logout "backend_v1" loggedInState).1 ∧
    (logout "backend_v1" loggedInState).2.2 = .ok () ∧
    tokensGet (logout "backend_v1" loggedInState).1.access_tokens "backend_v1"
        = none ∧
    ({ id := "backend_v1", profile := none, available := false } : Server).available
        = false := by
  have h := logout_idempotent "backend_v1" loggedInState
  exact ⟨h.1, h.2.1, h.2.2.2.1,
    (h.2.2.2.2 { id := "backend_v1", profile := none, available := false }
      (by decide)).1⟩

/-- C10: get_access_token leaves the registry untouched, returns the stored
access_token string when a token entry exists for the server, and fails with
the fixed message when none does. -/
theorem get_access_token_spec (server_id : String) (st : RegistryState) :
    (get_access_token server_id st).1 = st ∧
    (∀ t, tokensGet st.access_tokens server_id = some t →
      (get_access_token server_id st).2 = .ok t.access_token) ∧
    (tokensGet st.access_tokens server_id = none →
      (get_access_token server_id st).2 = .error "No access token available") := by
  refine ⟨?_, ?_, ?_⟩
  · unfold get_access_token
    cases h : tokensGet st.access_tokens server_id <;> simp
  · intro t ht; simp [get_access_token, ht]
  · intro hn; simp [get_access_token, hn]

/-- C10 witness: the theorem applied to the registry with one stored token,
returning its access_token string and leaving the registry unchanged. -/
theorem get_access_token_witness :
    (get_access_token "backend_v1" sampleState).1 = sampleState ∧
    (get_access_token "backend_v1" sampleState).2 = .ok "tok" := by
  have h := get_access_token_spec "backend_v1" sampleState
  exact ⟨h.1, h.2.1 sampleToken (by decide)⟩

set_option maxRecDepth 8192 in
/-- C3: the claim says finalization with an empty session slot fails with a
NoActiveSession error instead of reaching token exchange. In the code the
slot is taken unconditionally and never checked: starting from the registry
whose slot is already empty, finalization still issues the exchange request
and completes successfully. -/
theorem finalization_no_session_counterexample :
    emptyRegistry.oauth_state = none ∧
    (handle_sso_finalization "backend_v1" "abc" 8080 1000 (.ok "tok" "ref")
        (.success (.ok sampleProfile)) emptyRegistry).2.2 = .ok () ∧
    Event.tokenExchangeRequested
        { code := "abc", code_verifier := "", provider := "google-oauth2",
          tauri_redirect_uri := "http://localhost:8080/auth/callback" }
      ∈ (handle_sso_finalization "backend_v1" "abc" 8080 1000 (.ok "tok" "ref")
          (.success (.ok sampleProfile)) emptyRegistry).2.1 := by
  refine ⟨rfl, ?_, ?_⟩ <;> decide

/-- C3 (amended): finalization never inspects the session slot: its result
with an empty slot is identical to its result with any active material, and
in every run the token-exchange request is issued. -/
theorem finalization_ignores_session_slot
    (server_id code : String) (server_port now : Nat) (ex : ExchangeOutcome)
    (presp : ProfileResponse) (st : RegistryState) (s : String) :
    handle_sso_finalization server_id code server_port now ex presp
        { st with oauth_state := none } =
      handle_sso_finalization server_id code server_port now ex presp
        { st with oauth_state := some s } ∧
    Event.tokenExchangeRequested
        { code := code, code_verifier := "", provider := "google-oauth2",
          tauri_redirect_uri := oauth_callback_url server_port }
      ∈ (handle_sso_finalization server_id code server_port now ex presp st).2.1 := by
  constructor
  · rfl
  · unfold handle_sso_finalization
    cases ex with
    | netErr m => simp
    | httpErr b => simp
    | parseErr m => simp
    | ok a r =>
        dsimp only
        split <;> simp

/-- C7: when the token exchange succeeds but the profile fetch fails, the
finalization emits a login_failed event and returns the error, while the
token stored from the exchange stays in the registry. -/
theorem finalization_partial_success_keeps_token
    (server_id code : String) (server_port now : Nat) (a r : String)
    (presp : ProfileResponse) (st : RegistryState) (e : String)
    (h : profileFetchResult presp = .error e) :
    (handle_sso_finalization server_id code server_port now (.ok a r) presp st).2.2
        = .error e ∧
    Event.loginFailed e ∈
      (handle_sso_finalization server_id code server_port now (.ok a r) presp st).2.1 ∧
    tokensGet (handle_sso_finalization server_id code server_port now (.ok a r)
        presp st).1.access_tokens server_id =
      some (ServerAccessToken.new server_id a r ((now + 24 * 60 * 60) % 2 ^ 64)) := by
  have hget : get_user_profile
      (save_access_token st.access_tokens server_id
        (ServerAccessToken.new server_id a r ((now + 24 * 60 * 60) % 2 ^ 64)))
      server_id presp = .error e := by
    unfold get_user_profile save_access_token
    rw [tokensGet_insert_self]
    exact h
  unfold handle_sso_finalization
  dsimp only
  rw [hget]
  refine ⟨rfl, ?_, ?_⟩
  · simp
  · exact tokensGet_insert_self st.access_tokens server_id
      (ServerAccessToken.new server_id a r ((now + 24 * 60 * 60) % 2 ^ 64))

/-- C7 witness: the theorem at a concrete exchange success followed by a 500
profile response. -/
theorem finalization_partial_success_witness :
    (handle_sso_finalization "backend_v1" "abc" 8080 1000 (.ok "tok" "ref")
        (.status 500) emptyRegistry).2.2 = .error "Request failed with status: 500" ∧
    Event.loginFailed "Request failed with status: 500" ∈
      (handle_sso_finalization "backend_v1" "abc" 8080 1000 (.ok "tok" "ref")
        (.status 500) emptyRegistry).2.1 ∧
    tokensGet (handle_sso_finalization "backend_v1" "abc" 8080 1000 (.ok "tok" "ref")
        (.status 500) emptyRegistry).1.access_tokens "backend_v1" =
      some (ServerAccessToken.new "backend_v1" "tok" "ref"
        ((1000 + 24 * 60 * 60) % 2 ^ 64)) :=
  finalization_partial_success_keeps_token "backend_v1" "abc" 8080 1000
    "tok" "ref" (.status 500) emptyRegistry
    "Request failed with status: 500" (by decide)

/-- C8: a successful exchange at time now stores a token carrying the server
id and both exchanged token strings, with expires_at exactly now + 86400,
whichever way the subsequent profile fetch goes. -/
theorem finalization_stores_full_token
    (server_id code : String) (server_port now : Nat) (a r : String)
    (presp : ProfileResponse) (st : RegistryState)
    (h : now + 86400 < 2 ^ 64) :
    tokensGet (handle_sso_finalization server_id code server_port now (.ok a r)
        presp st).1.access_tokens server_id =
      some { server_id := server_id, access_token := a, refresh_token := r,
             expires_at := now + 86400 } := by
  have hmod : (now + 24 * 60 * 60) % 2 ^ 64 = now + 86400 := Nat.mod_eq_of_lt h
  unfold handle_sso_finalization
  dsimp only
  split <;>
    (rw [hmod]
     simpa [save_access_token, ServerAccessToken.new] using
       tokensGet_insert_self st.access_tokens server_id
         (ServerAccessToken.new server_id a r (now + 86400)))

/-- C8 witness: the theorem at a concrete exchange at epoch second 1000. -/
theorem finalization_stores_full_token_witness :
    tokensGet (handle_sso_finalization "backend_v1" "abc" 8080 1000 (.ok "tok" "ref")
        (.success (.ok sampleProfile)) emptyRegistry).1.access_tokens "backend_v1" =
      some { server_id := "backend_v1", access_token := "tok",
             refresh_token := "ref", expires_at := 87400 } :=
  finalization_stores_full_token "backend_v1" "abc" 8080 1000 "tok" "ref"
    (.success (.ok sampleProfile)) emptyRegistry (by decide)

/-- C4: the claim says a timed-out loopback attempt both resolves with the
timeout error and stops the listener. In the code the shutdown sender is
only taken inside the callback handlers, so when no callback arrives the
select returns the timeout error while the shutdown channel was never
signalled: the listener stays up and the port stays bound. -/
theorem callback_timeout_counterexample :
    (start_oauth_callback_server []).2 = .error "Authentication timed out" ∧
    (start_oauth_callback_server []).1.shutdown_scheduled = false ∧
    (start_oauth_callback_server []).1.shutdown_tx = true := by
  refine ⟨rfl, rfl, rfl⟩

/-- C4 (amended): an attempt in which no request before the deadline carries
a code or error parameter resolves with the timeout error, but no shutdown
is ever signalled — the listener is left running and the port is not
released. -/
theorem callback_timeout_no_shutdown (reqs : List CallbackRequest)
    (h : ∀ r ∈ reqs, hmGet r.query_params "code" = none ∧
        hmGet r.query_params "error" = none) :
    (start_oauth_callback_server reqs).2 = .error "Authentication timed out" ∧
    (start_oauth_callback_server reqs).1.shutdown_scheduled = false ∧
    (start_oauth_callback_server reqs).1.shutdown_tx = true := by
  have hp := processCallbacks_nonresolving reqs initialCallbackServerState h
  unfold start_oauth_callback_server
  rw [hp]
  exact ⟨rfl, rfl, rfl⟩

/-- C4 witness: the amended theorem at a single diagnostic request that
carries neither a code nor an error parameter. -/
theorem callback_timeout_no_shutdown_witness :
    (start_oauth_callback_server [⟨[("state", "xyz")]⟩]).2 =
        .error "Authentication timed out" ∧
    (start_oauth_callback_server [⟨[("state", "xyz")]⟩]).1.shutdown_scheduled
        = false ∧
    (start_oauth_callback_server [⟨[("state", "xyz")]⟩]).1.shutdown_tx = true :=
  callback_timeout_no_shutdown [⟨[("state", "xyz")]⟩] (by decide)

/-- C5: the completion channel is resolved at most once per attempt: over
any request sequence at most one message is ever sent, a request arriving
after the sender was taken leaves the channel untouched, and two
back-to-back code deliveries resolve exactly once, with the first code. -/
theorem callback_completion_exactly_once :
    (∀ reqs, (processCallbacks initialCallbackServerState reqs).sent.length ≤ 1) ∧
    (∀ st r, st.tx = false → (handleCallback st r).sent = st.sent) ∧
    (∀ r₁ r₂ c, hmGet r₁.query_params "code" = some c →
      (processCallbacks initialCallbackServerState [r₁, r₂]).sent = [c]) := by
  refine ⟨?_, ?_, ?_⟩
  · intro reqs
    have h := processCallbacks_sent_le reqs initialCallbackServerState
    simpa [initialCallbackServerState] using h
  · exact handleCallback_tx_false
  · intro r₁ r₂ c hc
    have h1 : handleCallback initialCallbackServerState r₁ =
        { tx := false, shutdown_tx := false, sent := [c],
          shutdown_scheduled := true } := by
      unfold handleCallback initialCallbackServerState
      rw [hc]
      rfl
    have hs : processCallbacks initialCallbackServerState [r₁, r₂] =
        handleCallback (handleCallback initialCallbackServerState r₁) r₂ := rfl
    rw [hs, h1]
    exact handleCallback_tx_false _ r₂ rfl

/-- C5 witness: two near-simultaneous code deliveries for one attempt: the
channel carries exactly the first code, the send count stays at one, and the
second delivery is a no-op. -/
theorem callback_completion_exactly_once_witness :
    (processCallbacks initialCallbackServerState
        [⟨[("code", "abc")]⟩, ⟨[("code", "xyz")]⟩]).sent = ["abc"] ∧
    (processCallbacks initialCallbackServerState
        [⟨[("code", "abc")]⟩, ⟨[("code", "xyz")]⟩]).sent.length ≤ 1 ∧
    (handleCallback
        { tx := false, shutdown_tx := false, sent := ["abc"],
          shutdown_scheduled := true } ⟨[("code", "xyz")]⟩).sent = ["abc"] := by
  have h := callback_completion_exactly_once
  exact ⟨h.2.2 ⟨[("code", "abc")]⟩ ⟨[("code", "xyz")]⟩ "abc" (by decide),
    h.1 [⟨[("code", "abc")]⟩, ⟨[("code", "xyz")]⟩],
    h.2.1 _ ⟨[("code", "xyz")]⟩ rfl⟩

/-- C2: the claim says the correlation material is consumed in every
terminal outcome of an attempt, timeout included. In the code only the
finalization takes the slot; a timed-out attempt returns with the material
still stored. -/
theorem login_state_not_consumed_counterexample :
    (start_login_flow "backend_v1" timeoutEnv emptyRegistry).1.oauth_state =
        some "state123" ∧
    (start_login_flow "backend_v1" timeoutEnv emptyRegistry).2.2 =
        .error "Authentication timed out" := by
  exact ⟨rfl, rfl⟩

/-- C2 (amended): the stored OAuth state is cleared exactly when the run
reaches finalization (a code was received); on every earlier failure —
no port, backend failure, browser failure, callback error or timeout — the
material written at the start of the attempt is still in the slot when the
operation returns. -/
theorem oauth_state_cleared_only_at_finalization (server_id : String)
    (env : LoginEnv) (st : RegistryState) :
    (start_login_flow server_id env st).1.oauth_state =
      if loginReachesFinalization env then none else some env.fresh_state := by
  obtain ⟨fs, port, au, br, reqs, ex, pr, tnow⟩ := env
  cases port with
  | none => simp [start_login_flow, loginReachesFinalization]
  | some p =>
      cases au with
      | netErr m => simp [start_login_flow, loginReachesFinalization]
      | httpErr b => simp [start_login_flow, loginReachesFinalization]
      | parseErr m => simp [start_login_flow, loginReachesFinalization]
      | ok u =>
          cases br with
          | error e => simp [start_login_flow, loginReachesFinalization]
          | ok bu =>
              cases hout : (start_oauth_callback_server reqs).2 with
              | error e =>
                  simp [start_login_flow, loginReachesFinalization, hout]
              | ok c =>
                  simp [start_login_flow, loginReachesFinalization, hout,
                    finalization_oauth_state_none]

/-- C9: the deep-link listener triggers finalization exactly for a parsed
URI of scheme editron-app, host auth, path /callback whose query map holds
status=success, with the code parameter defaulting to the empty string;
every other event — unparseable, out of scheme, or without status=success —
is ignored and never reported as a login failure. -/
theorem deep_link_callback_contract :
    deep_link_handler none = .ignore ∧
    (∀ url : DeepLinkUrl,
      deep_link_handler (some url) =
        if url.scheme == "editron-app" && url.host == some "auth"
            && url.path == "/callback"
            && hmGet url.query_pairs "status" == some "success" then
          DeepLinkAction.finalize ((hmGet url.query_pairs "code").getD "")
        else .ignore) := by
  constructor
  · rfl
  · intro url
    unfold deep_link_handler
    cases hA : (url.scheme == "editron-app" && url.host == some "auth"
        && url.path == "/callback") with
    | false => simp [hA]
    | true =>
        cases hS : (hmGet url.query_pairs "status" == some "success") with
        | false => simp [hA, hS]
        | true => simp [hA, hS]

end Editron

